import Mathlib

/-!
# SEOToolkit — verification of the analysis engine

A shallow embedding, in Lean 4, of the SEO analysis engine of the
SEOToolkit repository: the per-page scorer (`analyzeSEO`), the duplicate
detector (`findDuplicates`), the keyword analyzer, the content-quality
analyzer (Flesch readability), the technical analyzer, the checklist
generator (`generateSEOChecklist`) and the report aggregator
(`generateSEOReport`).

Conventions used throughout the embedding:

* JavaScript strings are modelled by `String`; a JS truthiness test on a
  string (`if (s)`) is modelled by `s ≠ ""` / `s.length ≠ 0`.
* JS numbers are modelled by `ℚ` (exact) or `ℤ`/`ℕ` where the source only
  produces integers; JS `NaN` (which arises from `0/0`) is modelled by
  `Option ℚ` with `none` standing for `NaN`.  Comparisons against `NaN`
  are `false` in JS, which the `Option` helpers below reproduce.
* `Math.round` is round-half-up (towards `+∞`), `Math.max`/`Math.min` are
  `max`/`min`.
* JS `Map` preserves insertion order; it is modelled by an association
  list `List (κ × α)` with `Map.set` updating in place or appending.
-/

namespace SEOToolkit

/-- JS `Math.round`: rounds half-integers up (towards `+∞`). -/
def jsRound (q : ℚ) : ℤ := ⌊q + 1/2⌋

/-- JS `x >= c` where `x` may be `NaN` (modelled `none`): `NaN >= c` is `false`. -/
def optGe (x : Option ℚ) (c : ℚ) : Bool :=
  match x with
  | some q => decide (c ≤ q)
  | none => false

/-- JS `x < c` where `x` may be `NaN` (modelled `none`): `NaN < c` is `false`. -/
def optLt (x : Option ℚ) (c : ℚ) : Bool :=
  match x with
  | some q => decide (q < c)
  | none => false

/-- Does `cs` start with `pre`? -/
def startsWithChars : List Char → List Char → Bool
  | _, [] => true
  | [], _ :: _ => false
  | a :: as, b :: bs => a = b && startsWithChars as bs

/-- Does `cs` contain `sub` as a contiguous run?  (The empty run is contained
in every list, as for JS `includes`.) -/
def containsChars : List Char → List Char → Bool
  | [], sub => sub.isEmpty
  | s :: rest, sub => startsWithChars (s :: rest) sub || containsChars rest sub

/-- JS `haystack.includes(needle)` (substring containment; the empty string
is contained in every string). -/
def jsIncludes (s sub : String) : Bool :=
  containsChars s.data sub.data

/-- JS `String.prototype.trim`: strip whitespace from both ends. -/
def jsTrimChars (cs : List Char) : List Char :=
  ((cs.dropWhile Char.isWhitespace).reverse.dropWhile Char.isWhitespace).reverse

/-- Maximal whitespace-free runs of a character list; `cur` is the current
run, accumulated in reverse. -/
def wordsAux (cur : List Char) : List Char → List (List Char)
  | [] => if cur.isEmpty then [] else [cur.reverse]
  | c :: rest =>
    if c.isWhitespace then
      if cur.isEmpty then wordsAux [] rest else cur.reverse :: wordsAux [] rest
    else wordsAux (c :: cur) rest

/-- JS `str.split(/\s+/)` followed by `filter(w => w.length > 0)`:
the list of maximal whitespace-free runs. -/
def jsWords (s : String) : List String :=
  (wordsAux [] s.data).map List.asString

/-- One record per page, as harvested from the sitemap (src/types).
All text fields default to the empty string. -/
structure PageMetadata where
  url : String := ""
  title : String := ""
  description : String := ""
  ogTitle : String := ""
  ogDescription : String := ""
  ogImage : String := ""
  ogUrl : String := ""
  twitterTitle : String := ""
  twitterDescription : String := ""
  twitterImage : String := ""
  canonical : String := ""
  h1 : String := ""
  keywords : String := ""
deriving Repr, DecidableEq

/-! ## Core scorer (src/lib/seo-optimizer.ts, `analyzeSEO`) -/

structure RecommendedRange where
  min : ℕ
  max : ℕ
deriving Repr, DecidableEq

structure FieldCount where
  current : ℕ
  recommended : RecommendedRange
deriving Repr, DecidableEq

structure CharacterCounts where
  title : FieldCount
  description : FieldCount
deriving Repr, DecidableEq

structure SEOAnalysis where
  score : ℤ
  issues : List String
  suggestions : List String
  characterCounts : CharacterCounts
deriving Repr, DecidableEq

/-- Title analysis block: issues pushed for the title. -/
def titleIssues (n : ℕ) : List String :=
  if n = 0 then ["Missing title tag"]
  else if n < 30 then [s!"Title too short ({n} chars, recommended: 30-60)"]
  else if n > 60 then [s!"Title too long ({n} chars, recommended: 30-60)"]
  else []

/-- Title analysis block: suggestions pushed for the title. -/
def titleSuggestions (n : ℕ) : List String :=
  if n = 0 then []
  else if n < 30 then ["Expand title to 30-60 characters for better SEO"]
  else if n > 60 then ["Shorten title to 60 characters or less"]
  else []

/-- Title analysis block: amount subtracted from `score`. -/
def titleDeduct (n : ℕ) : ℤ :=
  if n = 0 then 20 else if n < 30 then 10 else if n > 60 then 10 else 0

/-- Description analysis block: issues pushed for the description. -/
def descIssues (n : ℕ) : List String :=
  if n = 0 then ["Missing meta description"]
  else if n < 120 then [s!"Description too short ({n} chars, recommended: 120-160)"]
  else if n > 160 then [s!"Description too long ({n} chars, recommended: 120-160)"]
  else []

/-- Description analysis block: suggestions pushed for the description. -/
def descSuggestions (n : ℕ) : List String :=
  if n = 0 then []
  else if n < 120 then ["Expand description to 120-160 characters"]
  else if n > 160 then ["Shorten description to 160 characters or less"]
  else []

/-- Description analysis block: amount subtracted from `score`. -/
def descDeduct (n : ℕ) : ℤ :=
  if n = 0 then 20 else if n < 120 then 10 else if n > 160 then 10 else 0

/-- `analyzeSEO` from src/lib/seo-optimizer.ts: deduction-based score
starting at 100, floored at 0 by `Math.max(0, score)`. -/
def analyzeSEO (metadata : PageMetadata) : SEOAnalysis :=
  let titleLength := metadata.title.length
  let descLength := metadata.description.length
  let issues :=
    titleIssues titleLength ++ descIssues descLength ++
    (if metadata.h1.length = 0 then ["Missing H1 tag"] else []) ++
    (if metadata.ogTitle = "" then ["Missing Open Graph title"] else []) ++
    (if metadata.ogDescription = "" then ["Missing Open Graph description"] else []) ++
    (if metadata.ogImage = "" then ["Missing Open Graph image"] else []) ++
    (if metadata.canonical = "" then ["Missing canonical URL"] else [])
  let suggestions :=
    titleSuggestions titleLength ++ descSuggestions descLength ++
    (if metadata.h1.length = 0 then ["Add an H1 tag that summarizes the page content"] else []) ++
    (if metadata.ogTitle = "" then ["Add og:title for better social media sharing"] else []) ++
    (if metadata.ogDescription = "" then ["Add og:description for better social media sharing"] else []) ++
    (if metadata.ogImage = "" then ["Add og:image for better social media previews"] else []) ++
    (if metadata.canonical = "" then ["Add canonical URL to prevent duplicate content issues"] else [])
  let score : ℤ := 100 - titleDeduct titleLength - descDeduct descLength
    - (if metadata.h1.length = 0 then 10 else 0)
    - (if metadata.ogTitle = "" then 5 else 0)
    - (if metadata.ogDescription = "" then 5 else 0)
    - (if metadata.ogImage = "" then 5 else 0)
    - (if metadata.canonical = "" then 5 else 0)
  { score := max 0 score
    issues := issues
    suggestions := suggestions
    characterCounts :=
      { title := { current := titleLength, recommended := { min := 30, max := 60 } }
        description := { current := descLength, recommended := { min := 120, max := 160 } } } }

/-- Unfolding lemma for the score returned by `analyzeSEO`. -/
theorem analyzeSEO_score_eq (m : PageMetadata) :
    (analyzeSEO m).score =
      max 0 (100 - titleDeduct m.title.length - descDeduct m.description.length
        - (if m.h1.length = 0 then 10 else 0)
        - (if m.ogTitle = "" then 5 else 0)
        - (if m.ogDescription = "" then 5 else 0)
        - (if m.ogImage = "" then 5 else 0)
        - (if m.canonical = "" then 5 else 0)) := rfl

theorem titleDeduct_bounds (n : ℕ) : 0 ≤ titleDeduct n ∧ titleDeduct n ≤ 20 := by
  unfold titleDeduct; split_ifs <;> omega

theorem descDeduct_bounds (n : ℕ) : 0 ≤ descDeduct n ∧ descDeduct n ≤ 20 := by
  unfold descDeduct; split_ifs <;> omega

theorem ite_zero_bounds (c : Prop) [Decidable c] (k : ℤ) (hk : 0 ≤ k) :
    0 ≤ (if c then k else 0) ∧ (if c then k else 0) ≤ k := by
  split <;> omega

/-- C7: for every `PageMetadata` input, `analyzeSEO().score` lies in `[0,100]`,
and emptying any one of the scored fields (title, description, h1, ogTitle,
ogDescription, ogImage, canonical) never increases the returned score. -/
theorem analyzeSEO_score_bounds_monotone (m : PageMetadata) :
    (0 ≤ (analyzeSEO m).score ∧ (analyzeSEO m).score ≤ 100) ∧
    (analyzeSEO { m with title := "" }).score ≤ (analyzeSEO m).score ∧
    (analyzeSEO { m with description := "" }).score ≤ (analyzeSEO m).score ∧
    (analyzeSEO { m with h1 := "" }).score ≤ (analyzeSEO m).score ∧
    (analyzeSEO { m with ogTitle := "" }).score ≤ (analyzeSEO m).score ∧
    (analyzeSEO { m with ogDescription := "" }).score ≤ (analyzeSEO m).score ∧
    (analyzeSEO { m with ogImage := "" }).score ≤ (analyzeSEO m).score ∧
    (analyzeSEO { m with canonical := "" }).score ≤ (analyzeSEO m).score := by
  obtain ⟨ht0, ht1⟩ := titleDeduct_bounds m.title.length
  obtain ⟨hd0, hd1⟩ := descDeduct_bounds m.description.length
  obtain ⟨hh0, hh1⟩ := ite_zero_bounds (m.h1.length = 0) (10 : ℤ) (by norm_num)
  obtain ⟨hot0, hot1⟩ := ite_zero_bounds (m.ogTitle = "") (5 : ℤ) (by norm_num)
  obtain ⟨hod0, hod1⟩ := ite_zero_bounds (m.ogDescription = "") (5 : ℤ) (by norm_num)
  obtain ⟨hoi0, hoi1⟩ := ite_zero_bounds (m.ogImage = "") (5 : ℤ) (by norm_num)
  obtain ⟨hc0, hc1⟩ := ite_zero_bounds (m.canonical = "") (5 : ℤ) (by norm_num)
  simp only [analyzeSEO_score_eq]
  refine ⟨⟨le_max_left _ _, max_le (by norm_num) (by omega)⟩,
    ?_, ?_, ?_, ?_, ?_, ?_, ?_⟩
  · refine max_le_max le_rfl ?_
    have e : titleDeduct ("".length) = 20 := by decide
    omega
  · refine max_le_max le_rfl ?_
    have e : descDeduct ("".length) = 20 := by decide
    omega
  · refine max_le_max le_rfl ?_
    have e : (if ("".length = 0) then (10 : ℤ) else 0) = 10 := by decide
    omega
  · refine max_le_max le_rfl ?_
    simp only [ite_true, if_true]
    omega
  · refine max_le_max le_rfl ?_
    simp only [ite_true, if_true]
    omega
  · refine max_le_max le_rfl ?_
    simp only [ite_true, if_true]
    omega
  · refine max_le_max le_rfl ?_
    simp only [ite_true, if_true]
    omega

/-- The page of the spec's worked example: every text field empty except `url`. -/
def examplePage : PageMetadata := { url := "https://example.com/page" }

/-- C2 counterexample: on the all-empty-except-`url` page the returned score is
30, not 35 as the claim states (the code also deducts 5 for the missing
`ogDescription`, a term the spec's arithmetic omits). -/
theorem analyzeSEO_examplePage_score_30 :
    (analyzeSEO examplePage).score = 30 ∧ (analyzeSEO examplePage).score ≠ 35 := by
  decide

/-- C2 (amended): for any `PageMetadata` whose text fields are all empty except
`url`, `analyzeSEO` returns issues including "Missing title tag", "Missing meta
description", "Missing H1 tag", "Missing Open Graph title", "Missing Open Graph
image", "Missing canonical URL", and a score of exactly
100−20−20−10−5−5−5−5 = 30 (the missing `ogDescription` also deducts 5). -/
theorem analyzeSEO_allEmpty (m : PageMetadata)
    (ht : m.title = "") (hd : m.description = "") (hh : m.h1 = "")
    (hot : m.ogTitle = "") (hod : m.ogDescription = "") (hoi : m.ogImage = "")
    (hou : m.ogUrl = "") (htt : m.twitterTitle = "") (htd : m.twitterDescription = "")
    (hti : m.twitterImage = "") (hc : m.canonical = "") (hk : m.keywords = "") :
    "Missing title tag" ∈ (analyzeSEO m).issues ∧
    "Missing meta description" ∈ (analyzeSEO m).issues ∧
    "Missing H1 tag" ∈ (analyzeSEO m).issues ∧
    "Missing Open Graph title" ∈ (analyzeSEO m).issues ∧
    "Missing Open Graph image" ∈ (analyzeSEO m).issues ∧
    "Missing canonical URL" ∈ (analyzeSEO m).issues ∧
    (analyzeSEO m).score = 30 := by
  simp [analyzeSEO, titleIssues, descIssues, titleDeduct, descDeduct,
    ht, hd, hh, hot, hod, hoi, hc]

/-- Witness for `analyzeSEO_allEmpty` at the concrete example page. -/
theorem analyzeSEO_allEmpty_witness :
    "Missing title tag" ∈ (analyzeSEO examplePage).issues ∧
    "Missing meta description" ∈ (analyzeSEO examplePage).issues ∧
    "Missing H1 tag" ∈ (analyzeSEO examplePage).issues ∧
    "Missing Open Graph title" ∈ (analyzeSEO examplePage).issues ∧
    "Missing Open Graph image" ∈ (analyzeSEO examplePage).issues ∧
    "Missing canonical URL" ∈ (analyzeSEO examplePage).issues ∧
    (analyzeSEO examplePage).score = 30 :=
  analyzeSEO_allEmpty examplePage rfl rfl rfl rfl rfl rfl rfl rfl rfl rfl rfl rfl

/-! ## Content-quality analyzer (src/lib/content-analyzer.ts) -/

/-- JS `text.replace(/<[^>]*>/g, ' ')`: each complete `<...>` tag (containing
no `>`) is replaced by one space, scanning left to right; a `<` with no later
`>` matches nothing and is kept. -/
def stripTagsAux : ℕ → List Char → List Char
  | 0, cs => cs
  | _ + 1, [] => []
  | fuel + 1, c :: rest =>
    if c = '<' then
      match rest.dropWhile (· ≠ '>') with
      | [] => c :: rest
      | _ :: after => ' ' :: stripTagsAux fuel after
    else c :: stripTagsAux fuel rest

/-- The fuel `s.data.length` always suffices: every recursive call strictly
shrinks the character list. -/
def stripTags (s : String) : String := (stripTagsAux s.data.length s.data).asString

/-- Characters counted by the sentence regex `/[.!?]+/`. -/
def isSentencePunct (c : Char) : Bool := c = '.' || c = '!' || c = '?'

/-- Vowels of the syllable regex `/[aeiouy]+/`. -/
def isVowelY (c : Char) : Bool :=
  c = 'a' || c = 'e' || c = 'i' || c = 'o' || c = 'u' || c = 'y'

/-- Number of maximal runs of characters satisfying `p` (the length of the
array returned by a global regex match on `[..]+`); the flag records whether
the previous character satisfied `p`. -/
def countRuns (p : Char → Bool) : Bool → List Char → ℕ
  | _, [] => 0
  | prev, c :: rest =>
    if p c then (if prev then 0 else 1) + countRuns p true rest
    else countRuns p false rest

/-- Syllable estimate of one word: vowel-group runs on the lowercased word,
minus one for a silent final `e` when there is more than one vowel group. -/
def estimateSyllables (word : String) : ℕ :=
  let lowerWord := word.data.map Char.toLower
  let vowelGroups := countRuns isVowelY false lowerWord
  if lowerWord.getLast? = some 'e' ∧ vowelGroups > 1 then vowelGroups - 1 else vowelGroups

structure Readability where
  score : Option ℚ
  level : String
deriving Repr, DecidableEq

/-- `calculateReadability` from src/lib/content-analyzer.ts (Flesch Reading
Ease).  `score = none` models the JS `NaN` produced by `0/0` when the
tag-stripped text has no words; every threshold comparison against `NaN` is
false in JS, so that branch yields level "Very Difficult", and
`Math.max(0, Math.min(100, NaN))` is `NaN` again. -/
def calculateReadability (text : String) : Readability :=
  if text = "" ∨ (jsTrimChars text.data).length = 0 then { score := some 0, level := "No content" }
  else
    let cleanText := stripTags text
    let sentenceRuns := countRuns isSentencePunct false cleanText.data
    let sentences : ℕ := if sentenceRuns = 0 then 1 else sentenceRuns
    let words := jsWords cleanText
    let wordCount := words.length
    let syllables := (words.map estimateSyllables).sum
    if wordCount = 0 then { score := none, level := "Very Difficult" }
    else
      let avgSentenceLength : ℚ := (wordCount : ℚ) / (sentences : ℚ)
      let avgSyllablesPerWord : ℚ := (syllables : ℚ) / (wordCount : ℚ)
      let score : ℚ := 206.835 - 1.015 * avgSentenceLength - 84.6 * avgSyllablesPerWord
      let level : String :=
        if score ≥ 90 then "Very Easy"
        else if score ≥ 80 then "Easy"
        else if score ≥ 70 then "Fairly Easy"
        else if score ≥ 60 then "Standard"
        else if score ≥ 50 then "Fairly Difficult"
        else if score ≥ 30 then "Difficult"
        else "Very Difficult"
      { score := some (max 0 (min 100 score)), level := level }

/-- C3 counterexample: the input `"<p>"` is non-empty (and not whitespace-only),
yet its tag-stripped text has no words, so the JS code computes `0/0` and the
returned score is `NaN` (modelled `none`) — not a non-NaN, non-negative
number as the claim states. -/
theorem calculateReadability_tag_only_NaN :
    (calculateReadability "<p>").score = none ∧ ("<p>" : String) ≠ "" ∧
      jsTrimChars ("<p>" : String).data ≠ [] := by
  decide

/-- C3 (amended): the readability function returns score 0 and level
"No content" for empty or whitespace-only input; and for every input whose
tag-stripped text contains at least one word, the returned score is a real
number (never `NaN`, modelled `some`) and is clamped to `[0,100]`, in
particular never negative.  (The original claim fails only on non-empty
inputs consisting entirely of HTML tags and whitespace, where the JS code
divides `0/0` and returns `NaN`.) -/
theorem calculateReadability_empty_and_bounds (t : String) :
    (jsTrimChars t.data = [] →
      calculateReadability t = { score := some 0, level := "No content" }) ∧
    (jsWords (stripTags t) ≠ [] →
      ∃ q, (calculateReadability t).score = some q ∧ 0 ≤ q ∧ q ≤ 100) := by
  constructor
  · intro h
    have : (jsTrimChars t.data).length = 0 := by rw [h]; rfl
    simp [calculateReadability, this]
  · intro h
    by_cases hg : t = "" ∨ (jsTrimChars t.data).length = 0
    · refine ⟨0, ?_, le_refl 0, by norm_num⟩
      rcases hg with hg | hg
      · simp [calculateReadability, hg]
      · simp [calculateReadability, List.length_eq_zero.mp hg]
    · have hw : (jsWords (stripTags t)).length ≠ 0 := by
        simpa [List.length_eq_zero] using h
      simp only [calculateReadability, if_neg hg, if_neg hw]
      exact ⟨_, rfl, le_max_left _ _, max_le (by norm_num) (min_le_left _ _)⟩

/-- Witness for `calculateReadability_empty_and_bounds`: a whitespace-only
input and an input with one word. -/
theorem calculateReadability_empty_and_bounds_witness :
    calculateReadability " " = { score := some 0, level := "No content" } ∧
      ∃ q, (calculateReadability "word").score = some q ∧ 0 ≤ q ∧ q ≤ 100 :=
  ⟨(calculateReadability_empty_and_bounds " ").1 (by decide),
   (calculateReadability_empty_and_bounds "word").2 (by decide)⟩

/-! ## Keyword analyzer (src/lib/keyword-analyzer.ts) -/

/-- The fixed stop-word set of `isStopWord`. -/
def stopWords : List String :=
  ["the", "a", "an", "and", "or", "but", "in", "on", "at", "to", "for",
   "of", "with", "by", "from", "as", "is", "was", "are", "were", "been",
   "be", "have", "has", "had", "do", "does", "did", "will", "would", "could",
   "should", "may", "might", "must", "can", "this", "that", "these", "those",
   "i", "you", "he", "she", "it", "we", "they", "what", "which", "who",
   "when", "where", "why", "how", "all", "each", "every", "both", "few",
   "more", "most", "other", "some", "such", "only", "own", "same", "than",
   "too", "very", "just", "now"]

/-- `isStopWord`: membership of the lowercased word in the stop-word set. -/
def isStopWord (w : List Char) : Bool :=
  stopWords.contains (w.map Char.toLower).asString

/-- JS `\w`: ASCII letters, digits and underscore. -/
def isWordChar (c : Char) : Bool := c.isAlphanum || c = '_'

/-- `replace(/[^\w\s]/g, ' ')`: non-word, non-whitespace characters become
spaces. -/
def replaceNonWord (cs : List Char) : List Char :=
  cs.map fun c => if isWordChar c || c.isWhitespace then c else ' '

/-- `extractKeywords`: strip tags, strip punctuation, lowercase, trim, split,
drop short words and stop words. -/
def extractKeywordsWords (text : String) (minLength : ℕ) : List (List Char) :=
  let cleanText :=
    jsTrimChars ((replaceNonWord (stripTagsAux text.data.length text.data)).map Char.toLower)
  (wordsAux [] cleanText).filter fun w => minLength ≤ w.length && !(isStopWord w)

/-- One step of the word-frequency `Map`: increment in place or append with
count 1 (JS `Map` preserves insertion order). -/
def bumpCount (m : List (List Char × ℕ)) (w : List Char) : List (List Char × ℕ) :=
  if m.any (fun e => e.1 = w) then
    m.map fun e => if e.1 = w then (e.1, e.2 + 1) else e
  else m ++ [(w, 1)]

/-- Stable insertion into a count-descending list: `x` goes before the first
entry whose count is `≤` its own, reproducing the stable JS
`sort((a, b) => b[1] - a[1])` on a list built in first-seen order. -/
def insertByCountDesc (x : List Char × ℕ) : List (List Char × ℕ) → List (List Char × ℕ)
  | [] => [x]
  | y :: ys => if y.2 ≤ x.2 then x :: y :: ys else y :: insertByCountDesc x ys

def sortByCountDesc (l : List (List Char × ℕ)) : List (List Char × ℕ) :=
  l.foldr insertByCountDesc []

/-- `extractKeywords` from src/lib/keyword-analyzer.ts: tokens ranked by
frequency descending, first-seen order preserved on ties. -/
def extractKeywords (text : String) (minLength : ℕ) : List String :=
  if text = "" then []
  else
    (sortByCountDesc (((extractKeywordsWords text minLength).foldl bumpCount []))).map
      fun e => e.1.asString

/-- The tokenization used by `calculateDensity`: lowercase, strip punctuation,
split on whitespace. -/
def densityWords (text : String) : List (List Char) :=
  wordsAux [] (replaceNonWord (text.data.map Char.toLower))

/-- The number of tokens equal to, or containing, the lowercased keyword. -/
def densityCount (text keyword : String) : ℕ :=
  let cleanKeyword := keyword.data.map Char.toLower
  ((densityWords text).filter fun w => w == cleanKeyword || containsChars w cleanKeyword).length

/-- `calculateDensity` from src/lib/keyword-analyzer.ts:
`(count of words equal to or containing keyword) / totalWords × 100`. -/
def calculateDensity (text keyword : String) : ℚ :=
  if text = "" || keyword = "" then 0
  else if 0 < (densityWords text).length then
    ((densityCount text keyword : ℚ) / ((densityWords text).length : ℚ)) * 100
  else 0

/-- `detectKeywordStuffing`: density strictly greater than 3. -/
def detectKeywordStuffing (text keyword : String) : Bool :=
  calculateDensity text keyword > 3

structure KeywordPlacement where
  inTitle : Bool
  inH1 : Bool
  inDescription : Bool
  inFirstParagraph : Bool
deriving Repr, DecidableEq

structure KeywordAnalysis where
  primaryKeyword : Option String
  secondaryKeywords : List String
  keywordDensity : List (String × ℚ)
  keywordPlacement : KeywordPlacement
  keywordStuffing : Bool
  suggestions : List String
deriving Repr, DecidableEq

/-- `analyzePlacement`: case-insensitive substring checks of the keyword
against title, h1 and description. -/
def analyzePlacement (metadata : PageMetadata) (keyword : String) : KeywordPlacement :=
  let lowerKeyword := keyword.data.map Char.toLower
  { inTitle := containsChars (metadata.title.data.map Char.toLower) lowerKeyword
    inH1 := containsChars (metadata.h1.data.map Char.toLower) lowerKeyword
    inDescription := containsChars (metadata.description.data.map Char.toLower) lowerKeyword
    inFirstParagraph := false }

/-- JS `[a, b, c].filter(Boolean).join(' ')` for strings. -/
def joinNonEmpty (parts : List String) : String :=
  (List.intercalate [' '] ((parts.map String.data).filter (· ≠ []))).asString

/-- `analyzeKeywords` from src/lib/keyword-analyzer.ts. -/
def analyzeKeywords (metadata : PageMetadata) : KeywordAnalysis :=
  let combinedText := joinNonEmpty
    [metadata.title, metadata.description, metadata.h1, metadata.ogTitle, metadata.ogDescription]
  let keywords := extractKeywords combinedText 4
  let primaryKeyword :=
    (keywords.find? fun kw =>
      containsChars (metadata.title.data.map Char.toLower) (kw.data.map Char.toLower)) <|>
    keywords.head?
  let secondaryKeywords :=
    (match primaryKeyword with
     | some p => keywords.filter (· ≠ p)
     | none => keywords).take 5
  let densityMap :=
    (match primaryKeyword with
     | some p => [(p, calculateDensity combinedText p)]
     | none => []) ++
    secondaryKeywords.map fun kw => (kw, calculateDensity combinedText kw)
  let keywordStuffing :=
    match primaryKeyword with
    | some p => detectKeywordStuffing combinedText p
    | none => false
  let keywordPlacement :=
    match primaryKeyword with
    | some p => analyzePlacement metadata p
    | none => { inTitle := false, inH1 := false, inDescription := false, inFirstParagraph := false }
  let suggestions :=
    match primaryKeyword with
    | some p =>
      (if !keywordPlacement.inTitle then [s!"Add primary keyword \"{p}\" to the title tag"] else []) ++
      (if !keywordPlacement.inH1 then [s!"Include primary keyword \"{p}\" in the H1 tag"] else []) ++
      (if !keywordPlacement.inDescription then
        [s!"Include primary keyword \"{p}\" in the meta description"] else []) ++
      (if keywordStuffing then
        [s!"Warning: Keyword stuffing detected. Reduce usage of \"{p}\""] else []) ++
      (if calculateDensity combinedText p < 0.5 then
        [s!"Consider increasing usage of primary keyword \"{p}\" (current density is low)"] else [])
    | none => ["No clear primary keyword identified. Consider adding a focus keyword to your content."]
  { primaryKeyword := primaryKeyword
    secondaryKeywords := secondaryKeywords
    keywordDensity := densityMap
    keywordPlacement := keywordPlacement
    keywordStuffing := keywordStuffing
    suggestions := suggestions }

/-- C9: for a text of exactly 100 tokens in which the keyword occurs as
exactly 3 tokens (counting tokens equal to or containing it), the computed
density is exactly 3 and the stuffing flag is off; and in general the
stuffing flag is set iff the density is strictly greater than 3. -/
theorem calculateDensity_three_percent (text keyword : String)
    (ht : text ≠ "") (hk : keyword ≠ "")
    (hw : (densityWords text).length = 100)
    (hc : densityCount text keyword = 3) :
    calculateDensity text keyword = 3 ∧
    detectKeywordStuffing text keyword = false ∧
    ∀ t k : String, detectKeywordStuffing t k = true ↔ calculateDensity t k > 3 := by
  have hd : calculateDensity text keyword = 3 := by
    simp [calculateDensity, ht, hk, hw, hc]
  refine ⟨hd, ?_, ?_⟩
  · simp [detectKeywordStuffing, hd]
  · intro t k
    simp [detectKeywordStuffing]

/-- A 100-token text in which "apple" occurs as exactly 3 tokens. -/
def appleText : String :=
  String.intercalate " " (List.replicate 97 "word" ++ List.replicate 3 "apple")

set_option maxRecDepth 100000 in
/-- Witness for `calculateDensity_three_percent` at the concrete 100-token
text. -/
theorem calculateDensity_three_percent_witness :
    calculateDensity appleText "apple" = 3 ∧
    detectKeywordStuffing appleText "apple" = false ∧
    ∀ t k : String, detectKeywordStuffing t k = true ↔ calculateDensity t k > 3 :=
  calculateDensity_three_percent appleText "apple" (by decide) (by decide)
    (by decide) (by decide)

/-! ## Technical analyzer (src/lib/technical-seo.ts) -/

/-- Characters allowed in a URL scheme after the first letter. -/
def isSchemeChar (c : Char) : Bool := c.isAlphanum || c = '+' || c = '-' || c = '.'

structure URLParts where
  pathname : List Char
deriving Repr, DecidableEq

/-- Model of the platform `new URL(url)` constructor (WHATWG), restricted to
what the analyzer consumes: success/failure of parsing an absolute URL and
its `pathname`.  A URL parses when it starts with `scheme:` (letter first,
then letters/digits/`+`/`-`/`.`); after `scheme://` the authority runs to the
first `/`, `?` or `#` and must be a non-empty host without spaces, and the
path (cut at `?`/`#`) defaults to `/`; without `//` the remainder is an
opaque path.  Percent-encoding and full host validation are not modelled;
the inputs appearing in this file are plain ASCII where this model and the
platform agree. -/
def jsParseURL (url : String) : Option URLParts :=
  match url.data.span (· ≠ ':') with
  | (scheme, ':' :: rest) =>
    if (scheme.headD ' ').isAlpha && scheme.all isSchemeChar then
      match rest with
      | '/' :: '/' :: tail =>
        let host := tail.takeWhile fun c => !(c = '/' || c = '?' || c = '#')
        let afterHost := tail.dropWhile fun c => !(c = '/' || c = '?' || c = '#')
        if host.isEmpty || host.contains ' ' then none
        else
          let rawPath := afterHost.takeWhile fun c => !(c = '?' || c = '#')
          some { pathname := if rawPath.isEmpty then ['/'] else rawPath }
      | _ => some { pathname := rest.takeWhile fun c => !(c = '?' || c = '#') }
    else none
  | _ => none

structure URLStructure where
  score : ℤ
  length : ℕ
  hasKeywords : Bool
  hasHyphens : Bool
  hasNumbers : Bool
  issues : List String
deriving Repr, DecidableEq

/-- Is there a run of at least `k` consecutive characters satisfying `p`?
`cnt` is the length of the current run. -/
def hasRunAux (p : Char → Bool) (k : ℕ) : ℕ → List Char → Bool
  | cnt, [] => decide (k ≤ cnt)
  | cnt, c :: rest =>
    if p c then hasRunAux p k (cnt + 1) rest
    else decide (k ≤ cnt) || hasRunAux p k 0 rest

/-- JS `str.split('/')`, keeping empty segments. -/
def splitSlashAux (cur : List Char) : List Char → List (List Char)
  | [] => [cur.reverse]
  | c :: rest =>
    if c = '/' then cur.reverse :: splitSlashAux [] rest
    else splitSlashAux (c :: cur) rest

/-- `segment.length > 3 && /[a-z]{3,}/.test(segment.toLowerCase())`. -/
def segmentHasKeyword (seg : List Char) : Bool :=
  3 < seg.length && hasRunAux (fun c => 'a' ≤ c && c ≤ 'z') 3 0 (seg.map Char.toLower)

/-- `analyzeURLStructure` from src/lib/technical-seo.ts: deduction-based URL
score; a URL that fails to parse is caught and degrades to score 0 with the
issue "Invalid URL format". -/
def analyzeURLStructure (url : String) : URLStructure :=
  match jsParseURL url with
  | none =>
    { score := 0, length := url.length, hasKeywords := false, hasHyphens := false,
      hasNumbers := false, issues := ["Invalid URL format"] }
  | some urlObj =>
    let path := urlObj.pathname
    let fullUrlLength := url.length
    let pathLength := path.length
    let hasKeywords := (splitSlashAux [] path).any segmentHasKeyword
    let hasHyphens := path.contains '-'
    let hasUnderscores := path.contains '_'
    let hasNumbers := path.any Char.isDigit
    let hasLongDigits := hasRunAux Char.isDigit 4 0 path
    let hasSpecial := path.any fun c => !(c.isAlpha || c.isDigit || c = '-' || c = '_' || c = '/')
    let issues :=
      (if fullUrlLength > 100 then [s!"URL is too long ({fullUrlLength} chars, recommended: < 100)"]
       else if fullUrlLength > 75 then [s!"URL is getting long ({fullUrlLength} chars)"]
       else []) ++
      (if pathLength > 60 then [s!"Path is too long ({pathLength} chars)"] else []) ++
      (if !hasKeywords && path ≠ ['/'] then ["URL path lacks descriptive keywords"] else []) ++
      (if hasUnderscores then ["URL contains underscores (use hyphens instead)"] else []) ++
      (if hasNumbers && hasLongDigits then
        ["URL contains long number sequences (may indicate dynamic URLs)"] else []) ++
      (if hasSpecial then
        ["URL contains special characters (use only alphanumeric, hyphens, and slashes)"] else [])
    let score : ℤ := 100
      - (if fullUrlLength > 100 then 20 else if fullUrlLength > 75 then 10 else 0)
      - (if pathLength > 60 then 15 else 0)
      - (if !hasKeywords && path ≠ ['/'] then 15 else 0)
      - (if hasUnderscores then 10 else 0)
      - (if hasNumbers && hasLongDigits then 5 else 0)
      - (if hasSpecial then 10 else 0)
    { score := max 0 score, length := fullUrlLength, hasKeywords := hasKeywords,
      hasHyphens := hasHyphens, hasNumbers := hasNumbers, issues := issues }

structure CanonicalUrl where
  present : Bool
  valid : Bool
  selfReferencing : Bool
  issues : List String
deriving Repr, DecidableEq

/-- JS `str.replace(/\/$/, '')`: drop a single trailing slash. -/
def stripTrailingSlash (cs : List Char) : List Char :=
  if cs.getLast? = some '/' then cs.dropLast else cs

/-- `analyzeCanonical` from src/lib/technical-seo.ts. -/
def analyzeCanonical (metadata : PageMetadata) : CanonicalUrl :=
  let present := metadata.canonical ≠ "" && 0 < (jsTrimChars metadata.canonical.data).length
  if !present then
    { present := false, valid := false, selfReferencing := false,
      issues := ["Missing canonical URL"] }
  else
    let valid := (jsParseURL metadata.canonical).isSome
    let selfReferencing := metadata.canonical = metadata.url ∨
      stripTrailingSlash metadata.canonical.data = stripTrailingSlash metadata.url.data
    { present := present, valid := valid, selfReferencing := selfReferencing,
      issues := if valid then [] else ["Canonical URL is not a valid URL"] }

structure RobotsMeta where
  present : Bool
  noindex : Bool
  nofollow : Bool
  issues : List String
deriving Repr, DecidableEq

/-- `analyzeRobotsMeta`: always undetected (requires page HTML). -/
def analyzeRobotsMeta (_metadata : PageMetadata) : RobotsMeta :=
  { present := false, noindex := false, nofollow := false,
    issues := ["Unable to detect robots meta tag (requires page HTML)"] }

structure SchemaMarkup where
  detected : Bool
  issues : List String
deriving Repr, DecidableEq

/-- `analyzeSchemaMarkup`: always undetected (requires page HTML). -/
def analyzeSchemaMarkup (_metadata : PageMetadata) : SchemaMarkup :=
  { detected := false,
    issues := ["No schema markup detected (add JSON-LD for better rich snippets)"] }

structure MobileViewport where
  present : Bool
  issues : List String
deriving Repr, DecidableEq

/-- `analyzeMobileViewport`: always undetected (requires page HTML). -/
def analyzeMobileViewport (_metadata : PageMetadata) : MobileViewport :=
  { present := false,
    issues := ["Mobile viewport meta tag not detected (required for mobile SEO)"] }

structure TechnicalSEOAnalysis where
  urlStructure : URLStructure
  canonicalUrl : CanonicalUrl
  robotsMeta : RobotsMeta
  schemaMarkup : SchemaMarkup
  mobileViewport : MobileViewport
  overallScore : ℤ
  suggestions : List String
deriving Repr, DecidableEq

/-- `analyzeTechnicalSEO` from src/lib/technical-seo.ts: the five sub-analyses
plus the rounded mean of `[urlScore, canonical?100:0, robots?100:50,
schema?100:0, viewport?100:0]`. -/
def analyzeTechnicalSEO (metadata : PageMetadata) : TechnicalSEOAnalysis :=
  let urlStructure := analyzeURLStructure metadata.url
  let canonicalUrl := analyzeCanonical metadata
  let robotsMeta := analyzeRobotsMeta metadata
  let schemaMarkup := analyzeSchemaMarkup metadata
  let mobileViewport := analyzeMobileViewport metadata
  let scores : List ℚ :=
    [(urlStructure.score : ℚ),
     if canonicalUrl.present then 100 else 0,
     if robotsMeta.present then 100 else 50,
     if schemaMarkup.detected then 100 else 0,
     if mobileViewport.present then 100 else 0]
  let overallScore := jsRound (scores.sum / (scores.length : ℚ))
  let suggestions :=
    (if !canonicalUrl.present then
      ["Add a canonical URL to prevent duplicate content issues"] else []) ++
    (if 0 < urlStructure.issues.length then
      ["Optimize URL structure: " ++ urlStructure.issues.headD ""] else []) ++
    (if !schemaMarkup.detected then
      ["Add structured data (JSON-LD) for better search result appearance"] else []) ++
    (if !mobileViewport.present then
      ["Add mobile viewport meta tag for mobile-friendly SEO"] else [])
  { urlStructure := urlStructure, canonicalUrl := canonicalUrl, robotsMeta := robotsMeta,
    schemaMarkup := schemaMarkup, mobileViewport := mobileViewport,
    overallScore := overallScore, suggestions := suggestions }

/-- C8: for every input whose `url` does not parse as a URL,
`analyzeTechnicalSEO` does not throw: the failure is caught locally, the
`urlStructure` sub-score degrades to 0 with the issue "Invalid URL format",
and the overall analysis is still returned (with the degraded sub-score fed
into the overall mean and suggestions). -/
theorem analyzeTechnicalSEO_invalid_url (m : PageMetadata)
    (h : jsParseURL m.url = none) :
    (analyzeTechnicalSEO m).urlStructure =
      { score := 0, length := m.url.length, hasKeywords := false, hasHyphens := false,
        hasNumbers := false, issues := ["Invalid URL format"] } ∧
    "Optimize URL structure: Invalid URL format" ∈ (analyzeTechnicalSEO m).suggestions ∧
    (analyzeTechnicalSEO m).overallScore =
      jsRound (((if (analyzeCanonical m).present then 100 else 0) + 50) / 5) := by
  have hurl : analyzeURLStructure m.url =
      { score := 0, length := m.url.length, hasKeywords := false, hasHyphens := false,
        hasNumbers := false, issues := ["Invalid URL format"] } := by
    simp [analyzeURLStructure, h]
  refine ⟨hurl, ?_, ?_⟩
  · simp [analyzeTechnicalSEO, hurl, analyzeSchemaMarkup, analyzeMobileViewport]
  · simp only [analyzeTechnicalSEO, hurl]
    simp [analyzeRobotsMeta, analyzeSchemaMarkup, analyzeMobileViewport]

/-- Witness for `analyzeTechnicalSEO_invalid_url` at a concretely malformed
URL. -/
theorem analyzeTechnicalSEO_invalid_url_witness :
    (analyzeTechnicalSEO { url := "not a url" }).urlStructure =
      { score := 0, length := ("not a url" : String).length, hasKeywords := false,
        hasHyphens := false, hasNumbers := false, issues := ["Invalid URL format"] } ∧
    "Optimize URL structure: Invalid URL format" ∈
      (analyzeTechnicalSEO { url := "not a url" }).suggestions ∧
    (analyzeTechnicalSEO { url := "not a url" }).overallScore =
      jsRound (((if (analyzeCanonical { url := "not a url" }).present then 100 else 0) + 50) / 5) :=
  analyzeTechnicalSEO_invalid_url { url := "not a url" } (by decide)

/-! ## Content quality (src/lib/content-analyzer.ts, `analyzeContentQuality`) -/

structure ContentQualityMetrics where
  wordCount : ℕ
  readabilityScore : Option ℚ
  readabilityLevel : String
  h1Count : ℕ
  h2Count : ℕ
  h3Count : ℕ
  headerHierarchyValid : Bool
  imageCount : ℕ
  imagesWithAlt : ℕ
  altTextCompleteness : ℚ
  issues : List String
  suggestions : List String
deriving Repr, DecidableEq

/-- `countWords`: words of the five combined short metadata fields. -/
def countWords (metadata : PageMetadata) : ℕ :=
  (jsWords (joinNonEmpty [metadata.title, metadata.description, metadata.h1,
    metadata.ogTitle, metadata.ogDescription])).length

/-- `analyzeContentQuality` from src/lib/content-analyzer.ts; `h2Count`,
`h3Count` and the image counts are the source's hard-coded zeros (full page
content unavailable), making `altTextCompleteness` take its 100 default. -/
def analyzeContentQuality (metadata : PageMetadata) : ContentQualityMetrics :=
  let combinedText := joinNonEmpty [metadata.title, metadata.description, metadata.h1]
  let wordCount := countWords metadata
  let readability := calculateReadability combinedText
  let h1Count : ℕ := if metadata.h1 ≠ "" then 1 else 0
  let issues :=
    (if wordCount < 300 then ["Low word count (less than 300 words recommended)"] else []) ++
    (if optLt readability.score 30 then ["Content is very difficult to read"]
     else if optLt readability.score 50 then ["Content is difficult to read"]
     else []) ++
    (if h1Count = 0 then ["Missing H1 tag"]
     else if h1Count > 1 then ["Multiple H1 tags found (should be only one)"]
     else [])
  let suggestions :=
    (if wordCount < 300 then
      ["Consider adding more content to improve SEO and user engagement"] else []) ++
    (if optLt readability.score 30 then
      ["Simplify language and sentence structure for better readability"]
     else if optLt readability.score 50 then
      ["Consider simplifying language for broader audience"]
     else []) ++
    (if h1Count = 0 then ["Add an H1 tag with your primary keyword"]
     else if h1Count > 1 then ["Use only one H1 tag per page, use H2-H6 for subheadings"]
     else [])
  { wordCount := wordCount
    readabilityScore := readability.score
    readabilityLevel := readability.level
    h1Count := h1Count
    h2Count := 0
    h3Count := 0
    headerHierarchyValid := h1Count = 1
    imageCount := 0
    imagesWithAlt := 0
    altTextCompleteness := 100
    issues := issues
    suggestions := suggestions }

/-! ## Checklist generator (src/lib/seo-checklist.ts) -/

inductive ChecklistStatus where
  | pass
  | fail
  | warning
deriving Repr, DecidableEq

inductive ChecklistCategory where
  | onPage
  | technical
  | content
  | social
  | mobile
deriving Repr, DecidableEq

inductive ChecklistPriority where
  | high
  | medium
  | low
deriving Repr, DecidableEq

structure ChecklistItem where
  id : String
  category : ChecklistCategory
  priority : ChecklistPriority
  title : String
  description : String
  status : ChecklistStatus
  action : String
deriving Repr, DecidableEq

/-- The nine on-page items pushed by `generateSEOChecklist`. -/
def onPageChecklist (metadata : PageMetadata) (seoAnalysis : SEOAnalysis)
    (keywordAnalysis : KeywordAnalysis) (contentQuality : ContentQualityMetrics) :
    List ChecklistItem :=
  let titleCur := seoAnalysis.characterCounts.title.current
  let descCur := seoAnalysis.characterCounts.description.current
  [{ id := "title-present", category := .onPage, priority := .high,
     title := "Title Tag Present", description := "Page has a title tag",
     status := if metadata.title ≠ "" then .pass else .fail,
     action := if metadata.title ≠ "" then "Title tag is present"
       else "Add a title tag to your page" },
   { id := "title-length", category := .onPage, priority := .high,
     title := "Title Length Optimal", description := "Title is between 30-60 characters",
     status := if 30 ≤ titleCur ∧ titleCur ≤ 60 then .pass
       else if titleCur = 0 then .fail else .warning,
     action := if titleCur = 0 then "Add a title tag"
       else if titleCur < 30 then
         s!"Expand title to 30-60 characters (currently {titleCur})"
       else s!"Shorten title to 60 characters or less (currently {titleCur})" },
   { id := "meta-description", category := .onPage, priority := .high,
     title := "Meta Description Present", description := "Page has a meta description",
     status := if metadata.description ≠ "" then .pass else .fail,
     action := if metadata.description ≠ "" then "Meta description is present"
       else "Add a meta description tag" },
   { id := "meta-description-length", category := .onPage, priority := .high,
     title := "Meta Description Length Optimal",
     description := "Description is between 120-160 characters",
     status := if 120 ≤ descCur ∧ descCur ≤ 160 then .pass
       else if descCur = 0 then .fail else .warning,
     action := if descCur = 0 then "Add a meta description"
       else if descCur < 120 then
         s!"Expand description to 120-160 characters (currently {descCur})"
       else s!"Shorten description to 160 characters or less (currently {descCur})" },
   { id := "h1-present", category := .onPage, priority := .high,
     title := "H1 Tag Present", description := "Page has exactly one H1 tag",
     status := if contentQuality.h1Count = 1 then .pass
       else if contentQuality.h1Count = 0 then .fail else .warning,
     action := if contentQuality.h1Count = 0 then "Add an H1 tag with your primary keyword"
       else if contentQuality.h1Count > 1 then
         s!"Use only one H1 tag (found {contentQuality.h1Count})"
       else "H1 tag is present" },
   { id := "keyword-in-title", category := .onPage, priority := .high,
     title := "Primary Keyword in Title", description := "Primary keyword appears in title tag",
     status := if keywordAnalysis.primaryKeyword.isSome ∧ keywordAnalysis.keywordPlacement.inTitle
       then .pass else .warning,
     action := match keywordAnalysis.primaryKeyword with
       | some p =>
         if keywordAnalysis.keywordPlacement.inTitle then "Primary keyword is in title"
         else s!"Add primary keyword \"{p}\" to title"
       | none => "Identify and add a primary keyword to your title" },
   { id := "keyword-in-h1", category := .onPage, priority := .medium,
     title := "Primary Keyword in H1", description := "Primary keyword appears in H1 tag",
     status := if keywordAnalysis.primaryKeyword.isSome ∧ keywordAnalysis.keywordPlacement.inH1
       then .pass else .warning,
     action := match keywordAnalysis.primaryKeyword with
       | some p =>
         if keywordAnalysis.keywordPlacement.inH1 then "Primary keyword is in H1"
         else s!"Add primary keyword \"{p}\" to H1"
       | none => "Identify and add a primary keyword to your H1" },
   { id := "keyword-in-description", category := .onPage, priority := .medium,
     title := "Primary Keyword in Description",
     description := "Primary keyword appears in meta description",
     status := if keywordAnalysis.primaryKeyword.isSome ∧
         keywordAnalysis.keywordPlacement.inDescription then .pass else .warning,
     action := match keywordAnalysis.primaryKeyword with
       | some p =>
         if keywordAnalysis.keywordPlacement.inDescription then "Primary keyword is in description"
         else s!"Add primary keyword \"{p}\" to description"
       | none => "Identify and add a primary keyword to your description" },
   { id := "keyword-stuffing", category := .onPage, priority := .high,
     title := "No Keyword Stuffing", description := "Keyword density is within acceptable range",
     status := if keywordAnalysis.keywordStuffing then .fail else .pass,
     action := if keywordAnalysis.keywordStuffing then
       "Reduce keyword usage to avoid keyword stuffing penalty"
       else "Keyword density is optimal" }]

/-- The three technical items pushed by `generateSEOChecklist`. -/
def technicalChecklist (technicalSEO : TechnicalSEOAnalysis) : List ChecklistItem :=
  [{ id := "canonical-url", category := .technical, priority := .high,
     title := "Canonical URL Present", description := "Page has a canonical URL",
     status := if technicalSEO.canonicalUrl.present then .pass else .fail,
     action := if technicalSEO.canonicalUrl.present then "Canonical URL is present"
       else "Add a canonical URL to prevent duplicate content issues" },
   { id := "url-structure", category := .technical, priority := .medium,
     title := "URL Structure Optimized", description := "URL is clean and keyword-rich",
     status := if 80 ≤ technicalSEO.urlStructure.score then .pass
       else if 60 ≤ technicalSEO.urlStructure.score then .warning else .fail,
     action := if 0 < technicalSEO.urlStructure.issues.length then
       technicalSEO.urlStructure.issues.headD ""
       else "URL structure is optimized" },
   { id := "schema-markup", category := .technical, priority := .medium,
     title := "Schema Markup Present", description := "Page has structured data markup",
     status := if technicalSEO.schemaMarkup.detected then .pass else .warning,
     action := if technicalSEO.schemaMarkup.detected then "Schema markup is present"
       else "Add JSON-LD structured data for better rich snippets" }]

/-- The three social items pushed by `generateSEOChecklist`. -/
def socialChecklist (metadata : PageMetadata) : List ChecklistItem :=
  [{ id := "og-title", category := .social, priority := .medium,
     title := "Open Graph Title", description := "Page has og:title tag",
     status := if metadata.ogTitle ≠ "" then .pass else .warning,
     action := if metadata.ogTitle ≠ "" then "Open Graph title is present"
       else "Add og:title for better social sharing" },
   { id := "og-description", category := .social, priority := .medium,
     title := "Open Graph Description", description := "Page has og:description tag",
     status := if metadata.ogDescription ≠ "" then .pass else .warning,
     action := if metadata.ogDescription ≠ "" then "Open Graph description is present"
       else "Add og:description for better social sharing" },
   { id := "og-image", category := .social, priority := .medium,
     title := "Open Graph Image", description := "Page has og:image tag",
     status := if metadata.ogImage ≠ "" then .pass else .warning,
     action := if metadata.ogImage ≠ "" then "Open Graph image is present"
       else "Add og:image for better social media previews" }]

/-- The two content items pushed by `generateSEOChecklist`. -/
def contentChecklist (contentQuality : ContentQualityMetrics) : List ChecklistItem :=
  [{ id := "word-count", category := .content, priority := .medium,
     title := "Adequate Word Count",
     description := "Page has sufficient content (300+ words recommended)",
     status := if 300 ≤ contentQuality.wordCount then .pass
       else if 150 ≤ contentQuality.wordCount then .warning else .fail,
     action := if 300 ≤ contentQuality.wordCount then "Word count is adequate"
       else s!"Add more content (currently {contentQuality.wordCount} words, recommended: 300+)" },
   { id := "readability", category := .content, priority := .low,
     title := "Content Readability", description := "Content is easy to read",
     status := if optGe contentQuality.readabilityScore 60 then .pass
       else if optGe contentQuality.readabilityScore 30 then .warning else .fail,
     action := if optGe contentQuality.readabilityScore 60 then
       "Content readability is good (" ++ contentQuality.readabilityLevel ++ ")"
       else "Improve readability (currently " ++ contentQuality.readabilityLevel ++ ")" }]

/-- The single mobile item pushed by `generateSEOChecklist`. -/
def mobileChecklist (technicalSEO : TechnicalSEOAnalysis) : List ChecklistItem :=
  [{ id := "mobile-viewport", category := .mobile, priority := .high,
     title := "Mobile Viewport Meta Tag", description := "Page has mobile viewport meta tag",
     status := if technicalSEO.mobileViewport.present then .pass else .warning,
     action := if technicalSEO.mobileViewport.present then "Mobile viewport tag is present"
       else "Add mobile viewport meta tag for mobile SEO" }]

/-- All items pushed by `generateSEOChecklist`, in push order. -/
def checklistItems (metadata : PageMetadata) : List ChecklistItem :=
  let seoAnalysis := analyzeSEO metadata
  let keywordAnalysis := analyzeKeywords metadata
  let contentQuality := analyzeContentQuality metadata
  let technicalSEO := analyzeTechnicalSEO metadata
  onPageChecklist metadata seoAnalysis keywordAnalysis contentQuality ++
    technicalChecklist technicalSEO ++
    socialChecklist metadata ++
    contentChecklist contentQuality ++
    mobileChecklist technicalSEO

structure SEOChecklist where
  items : List ChecklistItem
  passed : ℕ
  failed : ℕ
  warnings : ℕ
  score : ℤ
deriving Repr, DecidableEq

/-- `generateSEOChecklist` from src/lib/seo-checklist.ts. -/
def generateSEOChecklist (metadata : PageMetadata) : SEOChecklist :=
  let items := checklistItems metadata
  let passed := (items.filter fun i => i.status = ChecklistStatus.pass).length
  let failed := (items.filter fun i => i.status = ChecklistStatus.fail).length
  let warnings := (items.filter fun i => i.status = ChecklistStatus.warning).length
  let score := jsRound (((passed : ℚ) / (items.length : ℚ)) * 100)
  { items := items, passed := passed, failed := failed, warnings := warnings, score := score }

theorem generateSEOChecklist_items (m : PageMetadata) :
    (generateSEOChecklist m).items = checklistItems m := rfl

theorem generateSEOChecklist_passed (m : PageMetadata) :
    (generateSEOChecklist m).passed =
      ((checklistItems m).filter fun i => i.status = ChecklistStatus.pass).length := rfl

theorem generateSEOChecklist_failed (m : PageMetadata) :
    (generateSEOChecklist m).failed =
      ((checklistItems m).filter fun i => i.status = ChecklistStatus.fail).length := rfl

theorem generateSEOChecklist_warnings (m : PageMetadata) :
    (generateSEOChecklist m).warnings =
      ((checklistItems m).filter fun i => i.status = ChecklistStatus.warning).length := rfl

theorem generateSEOChecklist_score (m : PageMetadata) :
    (generateSEOChecklist m).score =
      jsRound ((((generateSEOChecklist m).passed : ℚ) / ((checklistItems m).length : ℚ)) * 100) :=
  rfl

theorem checklistItems_length (m : PageMetadata) : (checklistItems m).length = 18 := rfl

/-- Every checklist item has exactly one of the three statuses, so the three
status counts partition the item list. -/
theorem status_counts_partition (l : List ChecklistItem) :
    (l.filter fun i => i.status = ChecklistStatus.pass).length +
    (l.filter fun i => i.status = ChecklistStatus.fail).length +
    (l.filter fun i => i.status = ChecklistStatus.warning).length = l.length := by
  induction l with
  | nil => rfl
  | cons a t ih =>
    rcases h : a.status <;> simp [List.filter_cons, h] <;> omega

/-- C1 counterexample: on the concrete example page the checklist has 18
items, not 19 as the claim states. -/
theorem generateSEOChecklist_not_19_items :
    (generateSEOChecklist examplePage).items.length = 18 ∧
    (generateSEOChecklist examplePage).items.length ≠ 19 := by
  constructor
  · exact checklistItems_length examplePage
  · rw [generateSEOChecklist_items, checklistItems_length]
    decide

/-- C1 (amended): for every `PageMetadata` input, `generateSEOChecklist`
returns exactly 18 items (the source pushes 18, not 19), its
`passed + failed + warnings` counts sum to 18, and its score equals
`round(passed/18*100)`. -/
theorem generateSEOChecklist_totals (m : PageMetadata) :
    (generateSEOChecklist m).items.length = 18 ∧
    (generateSEOChecklist m).passed + (generateSEOChecklist m).failed +
      (generateSEOChecklist m).warnings = 18 ∧
    (generateSEOChecklist m).score =
      jsRound ((((generateSEOChecklist m).passed : ℚ) / 18) * 100) := by
  refine ⟨checklistItems_length m, ?_, ?_⟩
  · rw [generateSEOChecklist_passed, generateSEOChecklist_failed,
      generateSEOChecklist_warnings, status_counts_partition, checklistItems_length]
  · rw [generateSEOChecklist_score, checklistItems_length]
    norm_num

theorem analyzeTechnicalSEO_schemaMarkup (m : PageMetadata) :
    (analyzeTechnicalSEO m).schemaMarkup = analyzeSchemaMarkup m := rfl

theorem analyzeTechnicalSEO_mobileViewport (m : PageMetadata) :
    (analyzeTechnicalSEO m).mobileViewport = analyzeMobileViewport m := rfl

/-- `jsRound` is monotone. -/
theorem jsRound_mono {p q : ℚ} (h : p ≤ q) : jsRound p ≤ jsRound q :=
  Int.floor_le_floor (by linarith)

/-- A throwaway default for positional access into the checklist. -/
def defaultChecklistItem : ChecklistItem :=
  { id := "", category := .onPage, priority := .high, title := "", description := "",
    status := .pass, action := "" }

/-- C10: for every input, the checklist's schema-markup item (position 11)
and mobile-viewport item (position 17) have status warning (their detection
always reports absent), so at most 16 of the 18 items can pass and the
checklist score is bounded by `round(16/18*100) = 89`; in particular it
never reaches 100. -/
theorem generateSEOChecklist_score_capped (m : PageMetadata) :
    ((generateSEOChecklist m).items.getD 11 defaultChecklistItem).id = "schema-markup" ∧
    ((generateSEOChecklist m).items.getD 11 defaultChecklistItem).status =
      ChecklistStatus.warning ∧
    ((generateSEOChecklist m).items.getD 17 defaultChecklistItem).id = "mobile-viewport" ∧
    ((generateSEOChecklist m).items.getD 17 defaultChecklistItem).status =
      ChecklistStatus.warning ∧
    (generateSEOChecklist m).score ≤ 89 ∧
    (generateSEOChecklist m).score ≠ 100 ∧
    jsRound (((16 : ℚ) / 18) * 100) = 89 := by
  have hpass : (generateSEOChecklist m).passed ≤ 16 := by
    rw [generateSEOChecklist_passed]
    simp only [checklistItems, ← List.countP_eq_length_filter, List.countP_append]
    have h1 : (onPageChecklist m (analyzeSEO m) (analyzeKeywords m)
        (analyzeContentQuality m)).countP (fun i => i.status = ChecklistStatus.pass) ≤ 9 :=
      le_trans (List.countP_le_length _) (by rfl)
    have h2 : (technicalChecklist (analyzeTechnicalSEO m)).countP
        (fun i => i.status = ChecklistStatus.pass) ≤ 2 := by
      simp [technicalChecklist, List.countP_cons, analyzeTechnicalSEO_schemaMarkup,
        analyzeSchemaMarkup]
      split_ifs <;> omega
    have h3 : (socialChecklist m).countP (fun i => i.status = ChecklistStatus.pass) ≤ 3 :=
      le_trans (List.countP_le_length _) (by rfl)
    have h4 : (contentChecklist (analyzeContentQuality m)).countP
        (fun i => i.status = ChecklistStatus.pass) ≤ 2 :=
      le_trans (List.countP_le_length _) (by rfl)
    have h5 : (mobileChecklist (analyzeTechnicalSEO m)).countP
        (fun i => i.status = ChecklistStatus.pass) = 0 := by
      simp [mobileChecklist, List.countP_cons, analyzeTechnicalSEO_mobileViewport,
        analyzeMobileViewport]
    omega
  have hscore : (generateSEOChecklist m).score ≤ 89 := by
    rw [generateSEOChecklist_score, checklistItems_length]
    have hq : (((generateSEOChecklist m).passed : ℚ) / (18 : ℕ)) * 100 ≤ ((16 : ℚ) / 18) * 100 := by
      have : ((generateSEOChecklist m).passed : ℚ) ≤ 16 := by exact_mod_cast hpass
      push_cast
      linarith
    calc jsRound ((((generateSEOChecklist m).passed : ℚ) / ((18 : ℕ) : ℚ)) * 100)
        ≤ jsRound (((16 : ℚ) / 18) * 100) := jsRound_mono hq
      _ = 89 := by norm_num [jsRound]
  exact ⟨rfl, rfl, rfl, rfl, hscore, by omega, by norm_num [jsRound]⟩

/-! ## Duplicate detector (src/lib/seo-optimizer.ts, `findDuplicates`) -/

/-- The normalization applied to titles and descriptions before grouping:
`s.toLowerCase().trim()`. -/
def normalizeText (s : String) : List Char := jsTrimChars (s.data.map Char.toLower)

/-- JS `Map.get` on an insertion-ordered association list (first entry wins;
keys are unique in all uses below). -/
def lookupVal : List (List Char × List ℕ) → List Char → List ℕ
  | [], _ => []
  | e :: rest, k => if e.1 = k then e.2 else lookupVal rest k

/-- The `forEach` body building a grouping map: create the entry on first
sight, then push the index (JS `Map` keeps first-insertion key order). -/
def addIndex (m : List (List Char × List ℕ)) (k : List Char) (i : ℕ) :
    List (List Char × List ℕ) :=
  if m.any (fun e => e.1 = k) then
    m.map fun e => if e.1 = k then (e.1, e.2 ++ [i]) else e
  else m ++ [(k, [i])]

/-- The title/description grouping pass of `findDuplicates`: walk the pages
with their indices, grouping the indices of pages whose field `f` is
non-empty by normalized field text. -/
def collectGroups (f : PageMetadata → String) : ℕ → List PageMetadata →
    List (List Char × List ℕ) → List (List Char × List ℕ)
  | _, [], m => m
  | i, p :: ps, m =>
    collectGroups f (i + 1) ps
      (if f p ≠ "" then addIndex m (normalizeText (f p)) i else m)

/-- JS `Map.set` (string keys): replace the value in place when the key
exists, else append. -/
def mapSet (m : List (String × List ℕ)) (k : String) (v : List ℕ) :
    List (String × List ℕ) :=
  if m.any (fun e => e.1 = k) then
    m.map fun e => if e.1 = k then (e.1, v) else e
  else m ++ [(k, v)]

/-- `findDuplicates` from src/lib/seo-optimizer.ts: group page indices by
normalized title, then by normalized description (labels truncate the
description to 50 characters), reporting only groups of size > 1. -/
def findDuplicates (metadataList : List PageMetadata) : List (String × List ℕ) :=
  let titleMap := collectGroups (·.title) 0 metadataList []
  let afterTitles := titleMap.foldl
    (fun d e =>
      if 1 < e.2.length then
        mapSet d ("Duplicate title: \"" ++ e.1.asString ++ "\"") e.2
      else d) []
  let descMap := collectGroups (·.description) 0 metadataList []
  descMap.foldl
    (fun d e =>
      if 1 < e.2.length then
        mapSet d ("Duplicate description: \"" ++ (e.1.take 50).asString ++ "...\"") e.2
      else d) afterTitles

/-- Specification-side index list: the positions (counting from `i`) of the
pages whose field `f` is non-empty and normalizes to `s`, in increasing
order. -/
def idxWhere (f : PageMetadata → String) (s : List Char) : ℕ → List PageMetadata → List ℕ
  | _, [] => []
  | i, p :: ps =>
    if f p ≠ "" ∧ normalizeText (f p) = s then i :: idxWhere f s (i + 1) ps
    else idxWhere f s (i + 1) ps

theorem lookupVal_of_mem {m : List (List Char × List ℕ)} {e : List Char × List ℕ}
    (hm : (m.map Prod.fst).Nodup) (he : e ∈ m) : lookupVal m e.1 = e.2 := by
  induction m with
  | nil => simp at he
  | cons a t ih =>
    simp only [List.map_cons, List.nodup_cons] at hm
    rcases List.mem_cons.mp he with rfl | ht
    · simp [lookupVal]
    · have hne : a.1 ≠ e.1 := fun h => hm.1 (h ▸ List.mem_map_of_mem Prod.fst ht)
      simpa [lookupVal, hne] using ih hm.2 ht

theorem lookupVal_map_ne {m : List (List Char × List ℕ)} {k s : List Char} {i : ℕ}
    (hne : s ≠ k) :
    lookupVal (m.map fun e => if e.1 = k then (e.1, e.2 ++ [i]) else e) s = lookupVal m s := by
  have hkn : k ≠ s := fun h => hne h.symm
  induction m with
  | nil => rfl
  | cons a t ih =>
    by_cases ha : a.1 = k
    · simp [lookupVal, ha, hkn, ih]
    · by_cases has : a.1 = s <;> simp [lookupVal, ha, has, hne, hkn, ih]

theorem lookupVal_map_eq {m : List (List Char × List ℕ)} {k : List Char} {i : ℕ}
    (hk : m.any (fun e => e.1 = k) = true) :
    lookupVal (m.map fun e => if e.1 = k then (e.1, e.2 ++ [i]) else e) k =
      lookupVal m k ++ [i] := by
  induction m with
  | nil => simp at hk
  | cons a t ih =>
    by_cases ha : a.1 = k
    · simp [lookupVal, ha]
    · simp only [List.any_cons, Bool.or_eq_true, decide_eq_true_eq] at hk
      rcases hk with hk | hk
      · exact absurd hk ha
      · simp [lookupVal, ha, ih hk]

theorem lookupVal_eq_nil_of_not_mem {m : List (List Char × List ℕ)} {s : List Char}
    (h : m.any (fun e => e.1 = s) = false) : lookupVal m s = [] := by
  induction m with
  | nil => rfl
  | cons a t ih =>
    simp only [List.any_cons, Bool.or_eq_false_iff, decide_eq_false_iff_not] at h
    simp [lookupVal, h.1, ih h.2]

theorem lookupVal_append_of_any_false {m l : List (List Char × List ℕ)} {s : List Char}
    (h : m.any (fun e => e.1 = s) = false) : lookupVal (m ++ l) s = lookupVal l s := by
  induction m with
  | nil => rfl
  | cons a t ih =>
    simp only [List.any_cons, Bool.or_eq_false_iff, decide_eq_false_iff_not] at h
    simp [lookupVal, h.1, ih h.2]

theorem lookupVal_append_of_any_true {m l : List (List Char × List ℕ)} {s : List Char}
    (h : m.any (fun e => e.1 = s) = true) : lookupVal (m ++ l) s = lookupVal m s := by
  induction m with
  | nil => simp at h
  | cons a t ih =>
    by_cases ha : a.1 = s
    · simp [lookupVal, ha]
    · simp only [List.any_cons, Bool.or_eq_true, decide_eq_true_eq] at h
      rcases h with h | h
      · exact absurd h ha
      · simp [lookupVal, ha, ih h]

/-- The value of every key after one `addIndex` step: unchanged for other
keys, extended by `[i]` for key `k` (with the entry created if needed). -/
theorem lookupVal_addIndex (m : List (List Char × List ℕ)) (k : List Char) (i : ℕ)
    (s : List Char) :
    lookupVal (addIndex m k i) s = lookupVal m s ++ (if s = k then [i] else []) := by
  cases hany : m.any (fun e => e.1 = k) with
  | true =>
    have hm : addIndex m k i = m.map fun e => if e.1 = k then (e.1, e.2 ++ [i]) else e := by
      simp [addIndex, hany]
    rw [hm]
    by_cases hs : s = k
    · subst hs
      simp [lookupVal_map_eq hany]
    · simp [lookupVal_map_ne hs, hs]
  | false =>
    have hm : addIndex m k i = m ++ [(k, [i])] := by simp [addIndex, hany]
    rw [hm]
    by_cases hs : s = k
    · subst hs
      rw [lookupVal_append_of_any_false hany, lookupVal_eq_nil_of_not_mem hany]
      simp [lookupVal]
    · cases hss : m.any (fun e => e.1 = s) with
      | true =>
        rw [lookupVal_append_of_any_true hss]
        simp [hs]
      | false =>
        rw [lookupVal_append_of_any_false hss, lookupVal_eq_nil_of_not_mem hss]
        simp [lookupVal, hs, Ne.symm hs]

theorem keys_nodup_addIndex {m : List (List Char × List ℕ)} {k : List Char} {i : ℕ}
    (hm : (m.map Prod.fst).Nodup) : ((addIndex m k i).map Prod.fst).Nodup := by
  unfold addIndex
  split
  · have : ((m.map fun e => if e.1 = k then (e.1, e.2 ++ [i]) else e).map Prod.fst) =
        m.map Prod.fst := by
      rw [List.map_map]
      refine List.map_congr_left fun e _ => ?_
      by_cases he : e.1 = k <;> simp [he]
    rw [this]; exact hm
  · next hk =>
    have hnk : k ∉ m.map Prod.fst := by
      simp only [Bool.not_eq_true, List.any_eq_false, decide_eq_false_iff_not] at hk
      simp only [List.mem_map]
      rintro ⟨e, he, rfl⟩
      exact hk e he rfl
    simp [List.nodup_append, hm, hnk]

/-- Master invariant of the grouping pass: starting from a map with distinct
keys, every entry of the result holds its initial value extended by exactly
the matching positions of the processed pages, and keys stay distinct. -/
theorem collectGroups_spec (f : PageMetadata → String) (ps : List PageMetadata) :
    ∀ (i : ℕ) (m : List (List Char × List ℕ)), (m.map Prod.fst).Nodup →
      ((collectGroups f i ps m).map Prod.fst).Nodup ∧
      ∀ e ∈ collectGroups f i ps m, e.2 = lookupVal m e.1 ++ idxWhere f e.1 i ps := by
  induction ps with
  | nil =>
    intro i m hm
    refine ⟨hm, fun e he => ?_⟩
    rw [collectGroups] at he
    rw [idxWhere, List.append_nil]
    exact (lookupVal_of_mem hm he).symm
  | cons p ps ih =>
    intro i m hm
    by_cases hp : f p = ""
    · have hcg : collectGroups f i (p :: ps) m = collectGroups f (i + 1) ps m := by
        rw [collectGroups]
        simp [hp]
      obtain ⟨hnd, hval⟩ := ih (i + 1) m hm
      refine ⟨by rwa [hcg], fun e he => ?_⟩
      rw [hcg] at he
      have hidx : idxWhere f e.1 i (p :: ps) = idxWhere f e.1 (i + 1) ps := by
        simp [idxWhere, hp]
      rw [hidx]
      exact hval e he
    · have hcg : collectGroups f i (p :: ps) m =
          collectGroups f (i + 1) ps (addIndex m (normalizeText (f p)) i) := by
        rw [collectGroups]
        simp [hp]
      obtain ⟨hnd, hval⟩ := ih (i + 1) (addIndex m (normalizeText (f p)) i)
        (keys_nodup_addIndex hm)
      refine ⟨by rwa [hcg], fun e he => ?_⟩
      rw [hcg] at he
      have := hval e he
      rw [lookupVal_addIndex] at this
      rw [this]
      by_cases hek : e.1 = normalizeText (f p)
      · rw [idxWhere]
        simp [hek, hp]
      · rw [idxWhere]
        simp [hek, Ne.symm hek]

theorem mem_mapSet {d : List (String × List ℕ)} {k : String} {v : List ℕ}
    {g : String × List ℕ} (hg : g ∈ mapSet d k v) : g ∈ d ∨ g = (k, v) := by
  unfold mapSet at hg
  split at hg
  · obtain ⟨e, he, hge⟩ := List.mem_map.mp hg
    by_cases hek : e.1 = k
    · right; rw [← hge]; simp [hek]
    · left; rw [← hge]; simpa [hek] using he
  · rcases List.mem_append.mp hg with h | h
    · exact Or.inl h
    · simp at h; exact Or.inr h

/-- Every entry surviving the label-building fold is either inherited from
the accumulator or the labelled copy of a source group of size > 1. -/
theorem mem_foldl_mapSet (label : List Char → String) (src : List (List Char × List ℕ)) :
    ∀ (d : List (String × List ℕ)) (g : String × List ℕ),
      g ∈ src.foldl
        (fun d e => if 1 < e.2.length then mapSet d (label e.1) e.2 else d) d →
      g ∈ d ∨ ∃ e ∈ src, 1 < e.2.length ∧ g.1 = label e.1 ∧ g.2 = e.2 := by
  induction src with
  | nil => intro d g hg; exact Or.inl hg
  | cons e src ih =>
    intro d g hg
    simp only [List.foldl_cons] at hg
    rcases ih _ g hg with hd | ⟨e', he', hlen, hlab, hval⟩
    · by_cases he : 1 < e.2.length
      · rw [if_pos he] at hd
        rcases mem_mapSet hd with hd | rfl
        · exact Or.inl hd
        · exact Or.inr ⟨e, List.mem_cons_self e src, he, rfl, rfl⟩
      · rw [if_neg he] at hd
        exact Or.inl hd
    · exact Or.inr ⟨e', List.mem_cons_of_mem e he', hlen, hlab, hval⟩

/-- Two pages sharing the title "Home | Example" up to case and surrounding
whitespace. -/
def homePage0 : PageMetadata := { title := "Home | Example" }

def homePage1 : PageMetadata := { title := " HOME | EXAMPLE " }

/-- C6: `findDuplicates` reports only groups of size > 1; every group is
keyed by the label of a normalized (lowercased, trimmed) title or
description (description labels truncated to 50 characters) and carries
exactly the input positions of the pages with that normalized field, in
increasing (first-seen) order; and on two pages both titled
"Home | Example" (in any case/whitespace variant) it returns the single
title group with indices `[0, 1]`. -/
theorem findDuplicates_spec (pages : List PageMetadata) :
    (∀ g ∈ findDuplicates pages,
      1 < g.2.length ∧
      ∃ s : List Char,
        (g.1 = "Duplicate title: \"" ++ s.asString ++ "\"" ∧
          g.2 = idxWhere (fun p => p.title) s 0 pages) ∨
        (g.1 = "Duplicate description: \"" ++ (s.take 50).asString ++ "...\"" ∧
          g.2 = idxWhere (fun p => p.description) s 0 pages)) ∧
    findDuplicates [homePage0, homePage1] =
      [("Duplicate title: \"home | example\"", [0, 1])] := by
  constructor
  · intro g hg
    have htitle := (collectGroups_spec (fun p => p.title) pages 0 [] (by simp)).2
    have hdesc := (collectGroups_spec (fun p => p.description) pages 0 [] (by simp)).2
    unfold findDuplicates at hg
    rcases mem_foldl_mapSet
        (fun k => "Duplicate description: \"" ++ (k.take 50).asString ++ "...\"") _ _ g hg with
      hg1 | ⟨e, he, hlen, hlab, hval⟩
    · rcases mem_foldl_mapSet
          (fun k => "Duplicate title: \"" ++ k.asString ++ "\"") _ _ g hg1 with
        hg0 | ⟨e, he, hlen, hlab, hval⟩
      · simp at hg0
      · refine ⟨hval ▸ hlen, e.1, Or.inl ⟨hlab, ?_⟩⟩
        rw [hval, htitle e he]
        rfl
    · refine ⟨hval ▸ hlen, e.1, Or.inr ⟨hlab, ?_⟩⟩
      rw [hval, hdesc e he]
      rfl
  · decide

/-- Witness for `findDuplicates_spec`: the reported group of the concrete
two-page example, with its membership hypothesis discharged by evaluation. -/
theorem findDuplicates_spec_witness :
    1 < (("Duplicate title: \"home | example\"", [0, 1]) : String × List ℕ).2.length ∧
    ∃ s : List Char,
      (("Duplicate title: \"home | example\"", ([0, 1] : List ℕ)).1 =
          "Duplicate title: \"" ++ s.asString ++ "\"" ∧
        ([0, 1] : List ℕ) = idxWhere (fun p => p.title) s 0 [homePage0, homePage1]) ∨
      (("Duplicate title: \"home | example\"", ([0, 1] : List ℕ)).1 =
          "Duplicate description: \"" ++ (s.take 50).asString ++ "...\"" ∧
        ([0, 1] : List ℕ) = idxWhere (fun p => p.description) s 0 [homePage0, homePage1]) :=
  (findDuplicates_spec [homePage0, homePage1]).1
    ("Duplicate title: \"home | example\"", [0, 1]) (by decide)

/-! ## Category-scoring `analyzeSEO` (src/lib/storage.ts, lines 350–497) -/

/-- The category-scoring variant of `analyzeSEO` in src/lib/storage.ts.
Lines 350–414 (flat score, issues, suggestions) coincide with the
seo-optimizer version embedded above as `analyzeSEO`; lines 417–427 start
the category sub-scores from 100 and apply the title/description deductions;
but line 429 (`if (!h1) onPageScore -= 15`) and lines 432–465 read the bare
identifiers `h1`, `canonical`, `ogTitle`, `ogDescription`, `ogImage`, which
are bound nowhere in the module (the function's parameter is `metadata`).
Strict TypeScript rejects the file; under plain JavaScript evaluation the
first such read throws a `ReferenceError` after the flat analysis has been
computed, so the function never returns.  The embedding exposes this as an
`Except.error` carrying the thrown exception. -/
def analyzeSEOWithCategories (metadata : PageMetadata) : Except String SEOAnalysis :=
  let _flat := analyzeSEO metadata
  let _onPageScore : ℤ := 100
    - (if metadata.title.length = 0 then 25
       else if metadata.title.length < 30 ∨ metadata.title.length > 60 then 10 else 0)
    - (if metadata.description.length = 0 then 25
       else if metadata.description.length < 120 ∨ metadata.description.length > 160 then 10
       else 0)
  Except.error "ReferenceError: h1 is not defined"

/-- C4 (code bug): the category-scoring `analyzeSEO` never returns category
sub-scores for any input — evaluation always throws `ReferenceError` on the
undefined identifier `h1` — contradicting the claim (and the spec) that it
returns four independently-floored sub-scores. -/
theorem analyzeSEOWithCategories_always_throws (m : PageMetadata) :
    analyzeSEOWithCategories m = Except.error "ReferenceError: h1 is not defined" := rfl

/-! ## Report aggregator (src/lib/seo-report.ts, `generateSEOReport`) -/

structure ReportPage where
  url : String
  score : ℤ
  issues : List String
  recommendations : List String
deriving Repr, DecidableEq

structure ReportSummary where
  averageScore : Option ℤ
  pagesWithIssues : ℕ
  totalIssues : ℕ
  duplicateContent : ℕ
deriving Repr, DecidableEq

/-- `SEOReport` (the `generatedAt` wall-clock timestamp is outside the pure
model and carried by no claim).  `summary.averageScore = none` models the JS
`NaN` produced by `0/0` on an empty page list. -/
structure SEOReport where
  totalPages : ℕ
  summary : ReportSummary
  pages : List ReportPage
  duplicates : List (String × List ℕ)
deriving Repr, DecidableEq

/-- `generateSEOReport` from src/lib/seo-report.ts: per-page merge of the
analyzers plus summary statistics; `pages[i].score` is the checklist score
while `summary.averageScore` is the rounded mean of the `analyzeSEO`
scores. -/
def generateSEOReport (metadata : List PageMetadata) : SEOReport :=
  let analyses := metadata.map analyzeSEO
  let avgScore : Option ℤ :=
    if analyses.length = 0 then none
    else some (jsRound (((analyses.map fun a => a.score).sum : ℚ) / (analyses.length : ℚ)))
  let duplicates := findDuplicates metadata
  let pagesWithIssues := (analyses.filter fun a => 0 < a.issues.length).length
  let totalIssues := (analyses.map fun a => a.issues.length).sum
  let pages := metadata.map fun meta =>
    let seoAnalysis := analyzeSEO meta
    let keywordAnalysis := analyzeKeywords meta
    let contentQuality := analyzeContentQuality meta
    let technicalSEO := analyzeTechnicalSEO meta
    let checklist := generateSEOChecklist meta
    { url := meta.url
      score := checklist.score
      issues := seoAnalysis.issues ++ contentQuality.issues ++
        (technicalSEO.suggestions.filter fun s => jsIncludes s "Add" || jsIncludes s "Missing")
      recommendations := seoAnalysis.suggestions ++ keywordAnalysis.suggestions ++
        contentQuality.suggestions ++ technicalSEO.suggestions : ReportPage }
  { totalPages := metadata.length
    summary :=
      { averageScore := avgScore
        pagesWithIssues := pagesWithIssues
        totalIssues := totalIssues
        duplicateContent := duplicates.length }
    pages := pages
    duplicates := duplicates }

/-- A page like `examplePage` but with an Open Graph title, so its
`analyzeSEO` score is 35. -/
def examplePageB : PageMetadata := { url := "https://example.com/page", ogTitle := "Example" }

/-- C5 counterexample: on two concrete pages with `analyzeSEO` scores 30 and
35, the mean is 65/2 = 32.5 but the report's `averageScore` is the rounded
33 — `averageScore` equals `Math.round` of the mean, not the mean itself. -/
theorem generateSEOReport_average_is_rounded :
    (generateSEOReport [examplePage, examplePageB]).summary.averageScore = some 33 ∧
    (((analyzeSEO examplePage).score : ℚ) + ((analyzeSEO examplePageB).score : ℚ)) / 2 = 65 / 2 ∧
    ((33 : ℚ) ≠ 65 / 2) := by
  have h1 : (analyzeSEO examplePage).score = 30 := by decide
  have h2 : (analyzeSEO examplePageB).score = 35 := by decide
  refine ⟨?_, by rw [h1, h2]; norm_num, by norm_num⟩
  simp only [generateSEOReport, List.map_cons, List.map_nil, List.length_cons,
    List.length_nil, List.sum_cons, List.sum_nil, h1, h2]
  norm_num [jsRound]

/-- C5 (amended): for every non-empty page list, `generateSEOReport` returns
`totalPages` equal to the input length, the input URLs verbatim and in
order, `summary.averageScore` equal to `Math.round` of the mean of
`analyzeSEO(page).score`, and each page's reported score equal to that
page's checklist score (two distinct metrics). -/
theorem generateSEOReport_spec (pages : List PageMetadata) (h : pages ≠ []) :
    (generateSEOReport pages).totalPages = pages.length ∧
    (generateSEOReport pages).pages.map (fun p => p.url) = pages.map (fun p => p.url) ∧
    (generateSEOReport pages).summary.averageScore =
      some (jsRound ((pages.map fun p => ((analyzeSEO p).score : ℚ)).sum / (pages.length : ℚ))) ∧
    (generateSEOReport pages).pages.map (fun p => p.score) =
      pages.map (fun p => (generateSEOChecklist p).score) := by
  have hlen : (pages.map analyzeSEO).length = pages.length := List.length_map _ _
  have hne : ¬((pages.map analyzeSEO).length = 0) := by
    rw [hlen]
    simpa [List.length_eq_zero] using h
  refine ⟨rfl, ?_, ?_, ?_⟩
  · simp [generateSEOReport]
  · simp only [generateSEOReport, hne, if_false, List.map_map]
    rw [hlen]
    simp only [Function.comp_def]
  · simp [generateSEOReport]

/-- Witness for `generateSEOReport_spec` on a concrete one-page list. -/
theorem generateSEOReport_spec_witness :
    (generateSEOReport [examplePage]).totalPages = [examplePage].length ∧
    (generateSEOReport [examplePage]).pages.map (fun p => p.url) =
      [examplePage].map (fun p => p.url) ∧
    (generateSEOReport [examplePage]).summary.averageScore =
      some (jsRound (([examplePage].map fun p => ((analyzeSEO p).score : ℚ)).sum /
        (([examplePage] : List PageMetadata).length : ℚ))) ∧
    (generateSEOReport [examplePage]).pages.map (fun p => p.score) =
      [examplePage].map (fun p => (generateSEOChecklist p).score) :=
  generateSEOReport_spec [examplePage] (by decide)

end SEOToolkit
